import Mathlib

/-!
Verification of the LMS analytics core (risk & progress computation engine).

Shallow embedding of the pure analytics computations in `API/student.py`,
`API/teacher_course.py` and `API/teacher_overall.py`.

Modelling conventions:
* Tables are `List`s of record structures, in input-row order.
* Timestamps (`timestamp`, `duedate`, `submitted_at`) are integers counting
  seconds; `dateOf` truncates a timestamp to its day number (Python
  `Timestamp.date()`), and calendar dates are integer day numbers, so that
  `(d1 - d2).days` is plain integer subtraction.
* `score`/`maxscore` and all derived percentages are exact rationals; the
  source computes with IEEE floats, but every claim under study is about the
  arithmetic formula, not float rounding.
* A nullable column is an `Option`; pandas `NaN`/`NaT` results (e.g. the mean
  of an empty selection) are `none`.
* The reference date `today` (the spec's `as_of`) is passed as a parameter;
  its derivation from the daily-KPI table is outside the claims.
-/

namespace LMS

/-- Row of `user_dim`. -/
structure User where
  user_id : ℤ
  role : String
deriving DecidableEq, Repr

/-- Row of `enrol`. -/
structure Enrollment where
  course_id : ℤ
  user_id : ℤ
deriving DecidableEq, Repr

/-- Row of `grade`: one graded item for one user. -/
structure GradeRecord where
  course_id : ℤ
  user_id : ℤ
  item_id : ℤ
  score : ℚ
  maxscore : ℚ
deriving DecidableEq, Repr

/-- Row of `subm`: `submitted_at = none` models a pandas `NaT` (not submitted). -/
structure SubmissionRecord where
  course_id : ℤ
  user_id : ℤ
  activity_id : ℤ
  submitted_at : Option ℤ
  duedate : ℤ
deriving DecidableEq, Repr

/-- Row of `events`. -/
structure ActivityEvent where
  user_id : ℤ
  course_id : ℤ
  timestamp : ℤ
deriving DecidableEq, Repr

/-- Day number of a second-resolution timestamp (Python `Timestamp.date()`),
floor division so pre-epoch times are handled like Python `//`. -/
def dateOf (t : ℤ) : ℤ := Int.fdiv t 86400

/-- Maximum of a list of timestamps, `none` on the empty list
(pandas `Series.max()` of an empty selection is `NaT`). -/
def tsMax : List ℤ → Option ℤ
  | [] => none
  | t :: ts =>
    match tsMax ts with
    | none => some t
    | some m => some (max t m)

/-! ## student.py: progress, average grade, task classification -/

/-- `grade[grade.course_id == course_id]["item_id"].nunique()` (student.py:28). -/
def totalItems (grade : List GradeRecord) (c : ℤ) : ℕ :=
  (((grade.filter fun r => decide (r.course_id = c)).map fun r => r.item_id).dedup).length

/-- `subm[(course_id==c) & (user_id==u) & submitted_at.notna()]["activity_id"].nunique()`
(student.py:29-33). -/
def completedItems (subm : List SubmissionRecord) (c u : ℤ) : ℕ :=
  (((subm.filter fun r =>
      decide (r.course_id = c ∧ r.user_id = u ∧ r.submitted_at ≠ none)).map
        fun r => r.activity_id).dedup).length

/-- `100 * completed_items / total_items if total_items else 0` (student.py:34). -/
def progressPct (grade : List GradeRecord) (subm : List SubmissionRecord) (c u : ℤ) : ℚ :=
  if totalItems grade c ≠ 0 then
    100 * (completedItems subm c u : ℚ) / (totalItems grade c : ℚ)
  else 0

/-- `(df["score"] / df["maxscore"]).mean() * 100 if len(df) else 0`
(student.py:37-39, and the same expression in both teacher dashboards). -/
def avgGradePct (rows : List GradeRecord) : ℚ :=
  if rows.length ≠ 0 then
    ((rows.map fun r => r.score / r.maxscore).sum / (rows.length : ℚ)) * 100
  else 0

/-- Predicate of the `due_soon` selection (student.py:41-46): user matches,
`today <= duedate.date() <= today + 7`, not submitted. -/
def dueSoonPred (u today : ℤ) (r : SubmissionRecord) : Prop :=
  r.user_id = u ∧ today ≤ dateOf r.duedate ∧ dateOf r.duedate ≤ today + 7 ∧
    r.submitted_at = none

instance (u today : ℤ) (r : SubmissionRecord) : Decidable (dueSoonPred u today r) := by
  unfold dueSoonPred
  infer_instance

/-- Predicate of the `missing` selection (student.py:48-52): user matches,
`duedate.date() < today`, not submitted. -/
def missingPred (u today : ℤ) (r : SubmissionRecord) : Prop :=
  r.user_id = u ∧ dateOf r.duedate < today ∧ r.submitted_at = none

instance (u today : ℤ) (r : SubmissionRecord) : Decidable (missingPred u today r) := by
  unfold missingPred
  infer_instance

/-- The `due_soon` rows, in input order. The source's left-merge with
`course_dim` (unique `course_id` key) only attaches the course name column and
leaves the row set and order unchanged. -/
def dueSoonTasks (subm : List SubmissionRecord) (u today : ℤ) : List SubmissionRecord :=
  subm.filter fun r => decide (dueSoonPred u today r)

/-- The `missing` rows, in input order (same remark about the name merge). -/
def missingTasks (subm : List SubmissionRecord) (u today : ℤ) : List SubmissionRecord :=
  subm.filter fun r => decide (missingPred u today r)

/-! ## Risk scorer (teacher_course.py:33-49 and teacher_overall.py:51-69)

Both dashboards run the identical per-learner loop; they differ only in the
course scope (`course_id == c` in the per-course dashboard,
`course_id.isin(teacher_courses)` in the overall one), so the scope is a
parameter `cscope : ℤ → Prop`. -/

/-- `g = grade[<course scope>]` then `g[g.user_id == uid]`
(teacher_course.py:24,34; teacher_overall.py:47,56). -/
def stuGrades (grade : List GradeRecord) (cscope : ℤ → Prop) [DecidablePred cscope]
    (u : ℤ) : List GradeRecord :=
  ((grade.filter fun r => decide (cscope r.course_id)).filter fun r => decide (r.user_id = u))

/-- `grade_risk = 100 - avg_pct` with `avg_pct = 0` for no grade rows
(teacher_course.py:35-36). -/
def gradeRisk (grade : List GradeRecord) (cscope : ℤ → Prop) [DecidablePred cscope]
    (u : ℤ) : ℚ :=
  100 - avgGradePct (stuGrades grade cscope u)

/-- `missing = s[(s.submitted_at.isna()) & (s.duedate.dt.date < today)]` on the
scoped submissions, then `missing.groupby("user_id").size().get(uid, 0)`
(teacher_course.py:28-31,38; teacher_overall.py:48-50,60). -/
def missCnt (subm : List SubmissionRecord) (cscope : ℤ → Prop) [DecidablePred cscope]
    (today u : ℤ) : ℕ :=
  (((subm.filter fun r => decide (cscope r.course_id)).filter fun r =>
      decide (r.submitted_at = none ∧ dateOf r.duedate < today)).filter fun r =>
        decide (r.user_id = u)).length

/-- `missing_risk = min(100, miss_cnt * 10)` (teacher_course.py:39). -/
def missingRisk (subm : List SubmissionRecord) (cscope : ℤ → Prop) [DecidablePred cscope]
    (today u : ℤ) : ℚ :=
  min 100 ((missCnt subm cscope today u : ℚ) * 10)

/-- `events[<scope> & (events.user_id == uid)]["timestamp"].max()`
(teacher_course.py:41-43; teacher_overall.py:62-64). -/
def lastEventTs (events : List ActivityEvent) (cscope : ℤ → Prop) [DecidablePred cscope]
    (u : ℤ) : Option ℤ :=
  tsMax ((events.filter fun e => decide (cscope e.course_id ∧ e.user_id = u)).map
    fun e => e.timestamp)

/-- `inactivity = (today - last.date()).days if pd.notna(last) else 30`
(teacher_course.py:44). -/
def inactivityDays (events : List ActivityEvent) (cscope : ℤ → Prop) [DecidablePred cscope]
    (today u : ℤ) : ℤ :=
  match lastEventTs events cscope u with
  | some t => today - dateOf t
  | none => 30

/-- `inactivity_risk = min(100, inactivity / 30 * 100)` (teacher_course.py:45). -/
def inactivityRisk (events : List ActivityEvent) (cscope : ℤ → Prop) [DecidablePred cscope]
    (today u : ℤ) : ℚ :=
  min 100 ((inactivityDays events cscope today u : ℚ) / 30 * 100)

/-- `risk = (grade_risk + missing_risk + inactivity_risk) / 3` (teacher_course.py:47). -/
def riskScore (grade : List GradeRecord) (subm : List SubmissionRecord)
    (events : List ActivityEvent) (cscope : ℤ → Prop) [DecidablePred cscope]
    (today u : ℤ) : ℚ :=
  (gradeRisk grade cscope u + missingRisk subm cscope today u +
    inactivityRisk events cscope today u) / 3

/-- The `risk_rows` list: one `(uid, risk)` pair per cohort member, in cohort
order (teacher_course.py:33-48). -/
def riskRows (grade : List GradeRecord) (subm : List SubmissionRecord)
    (events : List ActivityEvent) (cscope : ℤ → Prop) [DecidablePred cscope]
    (today : ℤ) (cohort : List ℤ) : List (ℤ × ℚ) :=
  cohort.map fun u => (u, riskScore grade subm events cscope today u)

/-- `at_risk_count = int((risk_df["risk_pct"] > 60).sum())`
(teacher_course.py:55-56; teacher_overall.py:78-79). -/
def atRiskCount (rows : List (ℤ × ℚ)) : ℕ :=
  (rows.filter fun r => decide ((60 : ℚ) < r.2)).length

/-- `at_risk_pct = (at_risk_count / len(risk_df) * 100) if len(risk_df) else 0`
(teacher_course.py:57; teacher_overall.py:80). -/
def atRiskPct (rows : List (ℤ × ℚ)) : ℚ :=
  if rows.length ≠ 0 then (atRiskCount rows : ℚ) / (rows.length : ℚ) * 100 else 0

/-! ## teacher_overall.py: cohort, inactive students, learning-hours proxy -/

/-- `teacher_courses = enrol[enrol.user_id == teacher_id]["course_id"].unique()`
(teacher_overall.py:22). -/
def teacherCourses (enrol : List Enrollment) (teacher : ℤ) : List ℤ :=
  ((enrol.filter fun r => decide (r.user_id = teacher)).map fun r => r.course_id).dedup

/-- `student_ids = set(user_dim[user_dim.role == "student"]["user_id"])`
(teacher_overall.py:25). -/
def studentIds (users : List User) : List ℤ :=
  (users.filter fun r => decide (r.role = "student")).map fun r => r.user_id

/-- `[uid for uid in enrol[course_id.isin(teacher_courses)].user_id.unique()
if uid in student_ids]` (teacher_overall.py:26-30). -/
def studentsInTeacherCourses (users : List User) (enrol : List Enrollment)
    (teacher : ℤ) : List ℤ :=
  (((enrol.filter fun r => decide (r.course_id ∈ teacherCourses enrol teacher)).map
      fun r => r.user_id).dedup).filter fun u => decide (u ∈ studentIds users)

/-- The group keys of `events[user_id.isin(pool)].groupby("user_id")`: distinct
user ids occurring in the filtered event table (teacher_overall.py:35-39). -/
def usersWithEvents (events : List ActivityEvent) (pool : List ℤ) : List ℤ :=
  ((events.filter fun e => decide (e.user_id ∈ pool)).map fun e => e.user_id).dedup

/-- Per-group `timestamp.max()` of the same groupby (teacher_overall.py:35-39). -/
def lastActivityTs (events : List ActivityEvent) (pool : List ℤ) (u : ℤ) : Option ℤ :=
  tsMax (((events.filter fun e => decide (e.user_id ∈ pool)).filter fun e =>
    decide (e.user_id = u)).map fun e => e.timestamp)

/-- The users contributing to `inactive_students_7d`: group keys whose last
activity date is strictly before `today - 7 days` (teacher_overall.py:40-42). -/
def inactiveUsers7d (events : List ActivityEvent) (pool : List ℤ) (today : ℤ) : List ℤ :=
  (usersWithEvents events pool).filter fun u =>
    match lastActivityTs events pool u with
    | some t => decide (dateOf t < today - 7)
    | none => false

/-- `inactive_students_7d = int((last_activity.timestamp.dt.date < today - 7d).sum())`
(teacher_overall.py:40-43). -/
def inactiveStudents7d (events : List ActivityEvent) (pool : List ℤ) (today : ℤ) : ℕ :=
  (inactiveUsers7d events pool today).length

/-- Python 3 `round(x, 2)`: round half to even at two decimals. -/
def round2 (q : ℚ) : ℚ :=
  (let x : ℚ := q * 100
   let n : ℤ := ⌊x⌋
   ((if x - n < 1 / 2 then n
     else if 1 / 2 < x - n then n + 1
     else if n % 2 = 0 then n else n + 1) : ℚ)) / 100

/-- `events_tc`: events of pool students restricted to the course scope
(teacher_overall.py:83-84). -/
def eventsTC (events : List ActivityEvent) (pool : List ℤ) (courses : List ℤ) :
    List ActivityEvent :=
  (events.filter fun e => decide (e.user_id ∈ pool)).filter fun e =>
    decide (e.course_id ∈ courses)

/-- One user's event timestamps in ascending order; models the
`sort_values(["user_id", "timestamp"])` grouping (teacher_overall.py:85). The
gap values depend only on the sorted timestamp values, so any correct sort is
a faithful model here. -/
def sortedTs (evs : List ActivityEvent) (u : ℤ) : List ℤ :=
  ((evs.filter fun e => decide (e.user_id = u)).map fun e => e.timestamp).insertionSort
    (· ≤ ·)

/-- Gaps in minutes between consecutive timestamps of one sorted list:
`next_ts - timestamp` via `groupby(user).shift(-1)`, seconds to minutes
(teacher_overall.py:86-89). The last row of each group pairs with `NaT` and is
dropped (its `NaN` gap fails the `between` filter). -/
def gapsMin (l : List ℤ) : List ℚ :=
  List.zipWith (fun a b => ((b - a : ℤ) : ℚ) / 60) l l.tail

/-- All same-user consecutive gaps in minutes, over every user of `evs`. -/
def allGapsMin (evs : List ActivityEvent) : List ℚ :=
  (((evs.map fun e => e.user_id).dedup).map fun u => gapsMin (sortedTs evs u)).flatten

/-- `events_tc[events_tc.session_gap_min.between(1, 30)]` — pandas `between`
is INCLUSIVE at both endpoints by default (teacher_overall.py:90). -/
def keptGapsMin (evs : List ActivityEvent) : List ℚ :=
  (allGapsMin evs).filter fun g => decide (1 ≤ g ∧ g ≤ 30)

/-- `avg_learning_hours = round(events_tc.session_gap_min.mean() / 60, 2)`
(teacher_overall.py:91); `none` models the `NaN` produced by the mean of an
empty selection (round(NaN, 2) is NaN). -/
def avgLearningHours (evs : List ActivityEvent) : Option ℚ :=
  match keptGapsMin evs with
  | [] => none
  | l => some (round2 (l.sum / (l.length : ℚ) / 60))

/-! ## Spec-side formulations

Definitions below follow the wording of the specification, to be compared
with the code-side definitions above. -/

/-- Spec wording of `avg_grade_pct`: "the mean, over all matching grade rows,
of score/maxscore * 100; 0 if the subset is empty". -/
def avgGradePctSpec (rows : List GradeRecord) : ℚ :=
  if rows = [] then 0
  else (rows.map fun r => r.score / r.maxscore * 100).sum / (rows.length : ℚ)

/-- The user's grade rows in scope, selected in one pass (spec wording). -/
def userScopeGrades (grade : List GradeRecord) (cscope : ℤ → Prop) [DecidablePred cscope]
    (u : ℤ) : List GradeRecord :=
  grade.filter fun r => decide (cscope r.course_id ∧ r.user_id = u)

/-- Spec wording of `grade_risk`: "100 - avg_grade_pct, so 100 for a learner
with no grade rows", over the user's grade rows in scope. -/
def gradeRiskSpec (grade : List GradeRecord) (cscope : ℤ → Prop) [DecidablePred cscope]
    (u : ℤ) : ℚ :=
  if userScopeGrades grade cscope u = [] then 100
  else 100 - avgGradePctSpec (userScopeGrades grade cscope u)

/-- Spec wording of `missing_risk`: "min(100, 10 * count of unsubmitted rows
with duedate before as_of in scope)". -/
def missingRiskSpec (subm : List SubmissionRecord) (cscope : ℤ → Prop)
    [DecidablePred cscope] (today u : ℤ) : ℚ :=
  min 100 (10 * (subm.countP fun r =>
    decide (cscope r.course_id ∧ r.user_id = u ∧ r.submitted_at = none ∧
      dateOf r.duedate < today) : ℚ))

/-- Spec wording of `inactivity_risk`: "min(100, inactivity_days / 30 * 100)"
with "inactivity_days = (as_of - last_event_date).days", defaulting to 30 when
the user has no events in scope. -/
def inactivityDaysSpec (events : List ActivityEvent) (cscope : ℤ → Prop)
    [DecidablePred cscope] (today u : ℤ) : ℤ :=
  match tsMax ((events.filter fun e =>
      decide (e.user_id = u ∧ cscope e.course_id)).map fun e => e.timestamp) with
  | some t => today - dateOf t
  | none => 30

/-- Spec wording of `inactivity_risk` (continued): "min(100, inactivity_days / 30 * 100)". -/
def inactivityRiskSpec (events : List ActivityEvent) (cscope : ℤ → Prop)
    [DecidablePred cscope] (today u : ℤ) : ℚ :=
  min 100 ((inactivityDaysSpec events cscope today u : ℚ) / 30 * 100)

/-- Spec wording of the composite:
"risk = (grade_risk + missing_risk + inactivity_risk) / 3". -/
def riskScoreSpec (grade : List GradeRecord) (subm : List SubmissionRecord)
    (events : List ActivityEvent) (cscope : ℤ → Prop) [DecidablePred cscope]
    (today u : ℤ) : ℚ :=
  (gradeRiskSpec grade cscope u + missingRiskSpec subm cscope today u +
    inactivityRiskSpec events cscope today u) / 3

/-- Gap lengths in hours of the gaps STRICTLY between 1 and 30 minutes. -/
def strictGapHours (evs : List ActivityEvent) : List ℚ :=
  ((allGapsMin evs).filter fun g => decide (1 < g ∧ g < 30)).map fun g => g / 60

/-- Claim wording of the learning-hours proxy with STRICT gap bounds: mean of
the gap lengths converted to hours, over gaps strictly between 1 and 30
minutes, rounded to 2 decimals; `none` when no gap qualifies. -/
def learningHoursSpecStrict (evs : List ActivityEvent) : Option ℚ :=
  if strictGapHours evs = [] then none
  else some (round2 ((strictGapHours evs).sum / ((strictGapHours evs).length : ℚ)))

/-- Gap lengths in hours of the gaps between 1 and 30 minutes INCLUSIVE. -/
def inclGapHours (evs : List ActivityEvent) : List ℚ :=
  ((allGapsMin evs).filter fun g => decide (1 ≤ g ∧ g ≤ 30)).map fun g => g / 60

/-- The learning-hours proxy with INCLUSIVE gap bounds (1 ≤ gap ≤ 30 minutes). -/
def learningHoursSpecIncl (evs : List ActivityEvent) : Option ℚ :=
  if inclGapHours evs = [] then none
  else some (round2 ((inclGapHours evs).sum / ((inclGapHours evs).length : ℚ)))

/-! ## Helper lemmas -/

/-- A sum of list elements each in `[0, 1]` lies in `[0, length]`. -/
theorem sum_bounds_of_unit (l : List ℚ) (h : ∀ x ∈ l, 0 ≤ x ∧ x ≤ 1) :
    0 ≤ l.sum ∧ l.sum ≤ (l.length : ℚ) := by
  induction l with
  | nil => simp
  | cons a t ih =>
    have ha := h a (by simp)
    have ht := ih fun x hx => h x (List.mem_cons_of_mem a hx)
    simp only [List.sum_cons, List.length_cons]
    constructor
    · have := ht.1
      linarith [ha.1]
    · push_cast
      linarith [ha.2, ht.2]

/-- `avgGradePct` is bounded by `[0, 100]` when every row's score lies in
`[0, maxscore]` with positive `maxscore`. -/
theorem avgGradePct_bounds (rows : List GradeRecord)
    (h : ∀ r ∈ rows, 0 ≤ r.score ∧ r.score ≤ r.maxscore ∧ 0 < r.maxscore) :
    0 ≤ avgGradePct rows ∧ avgGradePct rows ≤ 100 := by
  unfold avgGradePct
  by_cases hn : rows.length = 0
  · simp [hn]
  · simp only [hn, if_pos, ne_eq, not_false_iff]
    have hunit : ∀ x ∈ rows.map fun r => r.score / r.maxscore, 0 ≤ x ∧ x ≤ 1 := by
      intro x hx
      rcases List.mem_map.mp hx with ⟨r, hr, rfl⟩
      rcases h r hr with ⟨h0, h1, h2⟩
      exact ⟨div_nonneg h0 h2.le, (div_le_one h2).mpr h1⟩
    have hsum := sum_bounds_of_unit _ hunit
    rw [List.length_map] at hsum
    have hlen : (0 : ℚ) < (rows.length : ℚ) := by
      exact_mod_cast Nat.pos_of_ne_zero hn
    constructor
    · have : 0 ≤ (rows.map fun r => r.score / r.maxscore).sum / (rows.length : ℚ) :=
        div_nonneg hsum.1 hlen.le
      nlinarith
    · have : (rows.map fun r => r.score / r.maxscore).sum / (rows.length : ℚ) ≤ 1 :=
        (div_le_one hlen).mpr hsum.2
      nlinarith

/-- The maximum of a timestamp list is one of its elements. -/
theorem tsMax_mem {l : List ℤ} {t : ℤ} (h : tsMax l = some t) : t ∈ l := by
  induction l with
  | nil => simp [tsMax] at h
  | cons a s ih =>
    rw [tsMax] at h
    cases hs : tsMax s with
    | none =>
      rw [hs] at h
      simp at h
      simp [h]
    | some m =>
      rw [hs] at h
      simp at h
      rcases max_choice a m with hc | hc <;> rw [hc] at h
      · simp [h]
      · exact List.mem_cons_of_mem a (ih (h ▸ hs))

/-- `tsMax` is `none` exactly on the empty list. -/
theorem tsMax_eq_none_iff (l : List ℤ) : tsMax l = none ↔ l = [] := by
  cases l with
  | nil => simp [tsMax]
  | cons a s =>
    simp only [tsMax]
    cases tsMax s <;> simp

/-- Two chained decidable filters collapse to the filter of the conjunction. -/
theorem filter_filter_decide {α : Type} (l : List α) (p q : α → Prop)
    [DecidablePred p] [DecidablePred q] :
    ((l.filter fun a => decide (p a)).filter fun a => decide (q a)) =
      l.filter fun a => decide (p a ∧ q a) := by
  induction l with
  | nil => simp
  | cons a t ih =>
    by_cases hp : p a <;> by_cases hq : q a <;>
      simp [List.filter_cons, hp, hq, ih]

/-- Filters of pointwise-equivalent decidable predicates agree. -/
theorem filter_congr_decide {α : Type} (l : List α) (p q : α → Prop)
    [DecidablePred p] [DecidablePred q] (h : ∀ a, p a ↔ q a) :
    (l.filter fun a => decide (p a)) = l.filter fun a => decide (q a) := by
  induction l with
  | nil => rfl
  | cons a t ih =>
    by_cases hp : p a
    · simp [List.filter_cons, hp, (h a).mp hp, ih]
    · have hq : ¬q a := fun hq => hp ((h a).mpr hq)
      simp [List.filter_cons, hp, hq, ih]

/-- Mapping a constant division through a list divides its sum. -/
theorem sum_map_div (l : List ℚ) (c : ℚ) :
    (l.map fun g => g / c).sum = l.sum / c := by
  induction l with
  | nil => simp
  | cons a t ih => simp [ih, add_div]

/-- Mapping a constant multiplication through a list scales its sum. -/
theorem sum_map_mul {α : Type} (l : List α) (f : α → ℚ) (c : ℚ) :
    (l.map fun g => f g * c).sum = (l.map f).sum * c := by
  induction l with
  | nil => simp
  | cons a t ih => simp [ih, add_mul]

/-- The code's `avg_grade_pct` agrees with the spec's formulation
(mean of per-row percentages). -/
theorem avgGradePct_eq_spec (rows : List GradeRecord) :
    avgGradePct rows = avgGradePctSpec rows := by
  unfold avgGradePct avgGradePctSpec
  by_cases h : rows = []
  · simp [h]
  · have hl : rows.length ≠ 0 := by simpa using h
    simp only [h, hl, ne_eq, not_false_iff, if_neg, if_pos]
    have : (rows.map fun r => r.score / r.maxscore * 100).sum =
        (rows.map fun r => r.score / r.maxscore).sum * 100 :=
      sum_map_mul rows (fun r => r.score / r.maxscore) 100
    rw [this]
    ring

/-! ## Claim theorems -/

/-- C3: for every submissions table, user and as-of date, the `missing` and
`due_soon` classifications are disjoint, a row with non-null `submitted_at`
appears in neither, and a row whose duedate falls exactly on the as-of date is
classified due-soon, not missing. -/
theorem C3_task_partition (subm : List SubmissionRecord) (u today : ℤ)
    (r : SubmissionRecord) :
    (r ∈ missingTasks subm u today → r ∉ dueSoonTasks subm u today) ∧
    (r.submitted_at ≠ none →
      r ∉ missingTasks subm u today ∧ r ∉ dueSoonTasks subm u today) ∧
    (r ∈ subm → r.user_id = u → r.submitted_at = none → dateOf r.duedate = today →
      r ∈ dueSoonTasks subm u today ∧ r ∉ missingTasks subm u today) := by
  simp only [missingTasks, dueSoonTasks, List.mem_filter, decide_eq_true_eq,
    missingPred, dueSoonPred]
  refine ⟨?_, ?_, ?_⟩
  · rintro ⟨-, -, hlt, -⟩ ⟨-, -, hge, -, -⟩
    omega
  · intro hs
    constructor
    · rintro ⟨-, -, -, hna⟩
      exact hs hna
    · rintro ⟨-, -, -, -, hna⟩
      exact hs hna
  · intro hmem hu hna hd
    refine ⟨⟨hmem, hu, by omega, by omega, hna⟩, ?_⟩
    rintro ⟨-, -, hlt, -⟩
    omega

/-- A sample unsubmitted row due exactly on day 0. -/
def sampleDueToday : SubmissionRecord := ⟨1, 1, 5, none, 0⟩

/-- Witness for C3 at a concrete input: an unsubmitted row whose duedate is the
as-of date lands in `due_soon` and not in `missing`. -/
theorem C3_task_partition_witness :
    sampleDueToday ∈ dueSoonTasks [sampleDueToday] 1 0 ∧
      sampleDueToday ∉ missingTasks [sampleDueToday] 1 0 :=
  (C3_task_partition [sampleDueToday] 1 0 sampleDueToday).2.2 (by simp) rfl rfl
    (by decide)

/-- C8: the at-risk count counts exactly the cohort members with risk strictly
above 60 (a member with risk exactly 60 is not counted), and the at-risk
percentage of the empty cohort is 0, not NaN. -/
theorem C8_at_risk_threshold (grade : List GradeRecord) (subm : List SubmissionRecord)
    (events : List ActivityEvent) (cscope : ℤ → Prop) [DecidablePred cscope]
    (today : ℤ) (cohort : List ℤ) (rows : List (ℤ × ℚ)) (u : ℤ) :
    atRiskCount (riskRows grade subm events cscope today cohort) =
      cohort.countP (fun v => decide (60 < riskScore grade subm events cscope today v)) ∧
    atRiskCount ((u, (60 : ℚ)) :: rows) = atRiskCount rows ∧
    atRiskPct [] = 0 := by
  refine ⟨?_, ?_, ?_⟩
  · simp [atRiskCount, riskRows, List.filter_map, List.countP_eq_length_filter,
      Function.comp_def]
  · simp [atRiskCount, List.filter_cons]
  · simp [atRiskPct]

/-- C10: when no same-user consecutive event pair has a gap inside the
1-to-30-minute window, the learning-hours proxy is `none` (the NaN produced by
the mean of an empty selection), not 0 and not an error. -/
theorem C10_learning_hours_nan (evs : List ActivityEvent)
    (h : keptGapsMin evs = []) : avgLearningHours evs = none := by
  unfold avgLearningHours
  rw [h]

/-- Witness for C10 at a concrete input: with no events at all the
learning-hours proxy is `none`. -/
theorem C10_learning_hours_nan_witness : avgLearningHours [] = none :=
  C10_learning_hours_nan [] rfl

/-- Counterexample to C5 as stated: a grade row with `score > maxscore`
(nothing in the code forbids it) makes `avg_grade_pct` exceed 100. -/
theorem C5_avg_grade_counterexample :
    100 < avgGradePct [⟨1, 1, 1, 200, 100⟩] := by norm_num [avgGradePct]

/-- C5 (amended): `avg_grade_pct` is the unweighted mean of the per-row
percentages `score/maxscore * 100`, is 0 on the empty subset, lies in [0, 100]
PROVIDED every row's score lies in `[0, maxscore]` with positive `maxscore`,
and the example `{80/100, 60/100}` yields exactly 70. -/
theorem C5_avg_grade_mean (rows : List GradeRecord) :
    avgGradePct rows = avgGradePctSpec rows ∧
    avgGradePct [] = 0 ∧
    ((∀ r ∈ rows, 0 ≤ r.score ∧ r.score ≤ r.maxscore ∧ 0 < r.maxscore) →
      0 ≤ avgGradePct rows ∧ avgGradePct rows ≤ 100) ∧
    avgGradePct [⟨1, 1, 1, 80, 100⟩, ⟨1, 1, 2, 60, 100⟩] = 70 :=
  ⟨avgGradePct_eq_spec rows, by simp [avgGradePct], avgGradePct_bounds rows,
    by norm_num [avgGradePct]⟩

/-- The spec's worked example: two grade rows at 80% and 60%. -/
def sampleGrades70 : List GradeRecord := [⟨1, 1, 1, 80, 100⟩, ⟨1, 1, 2, 60, 100⟩]

/-- Witness for C5 at a concrete input: the bounds hold for the worked example
rows, whose scores are within `[0, maxscore]`. -/
theorem C5_avg_grade_mean_witness :
    0 ≤ avgGradePct sampleGrades70 ∧ avgGradePct sampleGrades70 ≤ 100 :=
  (C5_avg_grade_mean sampleGrades70).2.2.1 (by decide)

/-- Spec-side "distinct item_ids in the course's grade table", phrased as a
finite-set cardinality. -/
def totalItemsSpec (grade : List GradeRecord) (c : ℤ) : ℕ :=
  ((grade.filter fun r => decide (r.course_id = c)).map fun r => r.item_id).toFinset.card

/-- Spec-side "distinct activity_ids with non-null submitted_at for that course
and user", phrased as a finite-set cardinality. -/
def completedItemsSpec (subm : List SubmissionRecord) (c u : ℤ) : ℕ :=
  ((subm.filter fun r =>
    decide (r.course_id = c ∧ r.user_id = u ∧ r.submitted_at ≠ none)).map
      fun r => r.activity_id).toFinset.card

/-- Counterexample to C4 as stated: nothing ties submission `activity_id`s to
grade `item_id`s, so a learner with more distinct submitted activities than the
course has grade items gets `progress_pct > 100` (here 200). -/
theorem C4_progress_counterexample :
    100 < progressPct [⟨1, 5, 7, 1, 1⟩]
      [⟨1, 2, 100, some 0, 0⟩, ⟨1, 2, 101, some 0, 0⟩] 1 2 := by
  have h1 : totalItems [⟨1, 5, 7, 1, 1⟩] 1 = 1 := by decide
  have h2 : completedItems [⟨1, 2, 100, some 0, 0⟩, ⟨1, 2, 101, some 0, 0⟩] 1 2 = 2 := by
    decide
  rw [progressPct, h1, h2]
  norm_num

/-- C4 (amended): `progress_pct` equals `100 * completed / total` over the
distinct counts (0 when the course has no grade items), is never negative, and
is at most 100 PROVIDED the learner's distinct submitted-activity count does
not exceed the course's distinct grade-item count. -/
theorem C4_progress (grade : List GradeRecord) (subm : List SubmissionRecord)
    (c u : ℤ) :
    progressPct grade subm c u =
      (if totalItemsSpec grade c ≠ 0 then
        100 * (completedItemsSpec subm c u : ℚ) / (totalItemsSpec grade c : ℚ)
      else 0) ∧
    (totalItems grade c = 0 → progressPct grade subm c u = 0) ∧
    0 ≤ progressPct grade subm c u ∧
    (completedItems subm c u ≤ totalItems grade c → progressPct grade subm c u ≤ 100) := by
  have ht : totalItemsSpec grade c = totalItems grade c := by
    simp [totalItemsSpec, totalItems, List.card_toFinset]
  have hc : completedItemsSpec subm c u = completedItems subm c u := by
    simp [completedItemsSpec, completedItems, List.card_toFinset]
  refine ⟨by rw [ht, hc]; exact rfl, fun h0 => by simp [progressPct, h0], ?_, ?_⟩
  · unfold progressPct
    split
    · positivity
    · exact le_refl 0
  · intro h
    unfold progressPct
    split
    · rename_i hne
      have htpos : (0 : ℚ) < (totalItems grade c : ℚ) := by
        exact_mod_cast Nat.pos_of_ne_zero hne
      rw [div_le_iff₀ htpos]
      have hle : (completedItems subm c u : ℚ) ≤ (totalItems grade c : ℚ) := by
        exact_mod_cast h
      nlinarith
    · norm_num

/-- Five grade items in course 1 (the spec's `total_items = 5` scenario). -/
def sampleGradeItems5 : List GradeRecord :=
  [⟨1, 1, 1, 1, 1⟩, ⟨1, 1, 2, 1, 1⟩, ⟨1, 1, 3, 1, 1⟩, ⟨1, 1, 4, 1, 1⟩, ⟨1, 1, 5, 1, 1⟩]

/-- Three distinct submitted activities of user 2 in course 1. -/
def sampleSubms3 : List SubmissionRecord :=
  [⟨1, 2, 11, some 0, 0⟩, ⟨1, 2, 12, some 0, 0⟩, ⟨1, 2, 13, some 0, 0⟩]

/-- Witness for C4 at a concrete input: 3 completed of 5 items stays within the
bound. -/
theorem C4_progress_witness :
    progressPct sampleGradeItems5 sampleSubms3 1 2 ≤ 100 :=
  (C4_progress sampleGradeItems5 sampleSubms3 1 2).2.2.2 (by decide)

/-- The missing-work sub-score always lies in `[0, 100]`. -/
theorem missingRisk_bounds (subm : List SubmissionRecord) (cscope : ℤ → Prop)
    [DecidablePred cscope] (today u : ℤ) :
    0 ≤ missingRisk subm cscope today u ∧ missingRisk subm cscope today u ≤ 100 := by
  unfold missingRisk
  exact ⟨le_min (by norm_num) (by positivity), min_le_left _ _⟩

/-- The inactivity sub-score lies in `[0, 100]` when no event is dated after
the as-of date. -/
theorem inactivityRisk_bounds (events : List ActivityEvent) (cscope : ℤ → Prop)
    [DecidablePred cscope] (today u : ℤ)
    (he : ∀ e ∈ events, dateOf e.timestamp ≤ today) :
    0 ≤ inactivityRisk events cscope today u ∧
      inactivityRisk events cscope today u ≤ 100 := by
  have hdays : 0 ≤ inactivityDays events cscope today u := by
    unfold inactivityDays
    cases h : lastEventTs events cscope u with
    | none => norm_num
    | some t =>
      unfold lastEventTs at h
      have ht := tsMax_mem h
      rcases List.mem_map.mp ht with ⟨e, he', htv⟩
      have hev : e ∈ events := List.mem_of_mem_filter he'
      have hle := he e hev
      have htv' : e.timestamp = t := htv
      subst htv'
      show 0 ≤ today - dateOf e.timestamp
      omega
  unfold inactivityRisk
  refine ⟨le_min (by norm_num) ?_, min_le_left _ _⟩
  have hq : (0 : ℚ) ≤ ((inactivityDays events cscope today u : ℤ) : ℚ) := by
    exact_mod_cast hdays
  apply mul_nonneg (div_nonneg hq (by norm_num)) (by norm_num)

/-- The grade sub-score lies in `[0, 100]` when every grade row's score lies
in `[0, maxscore]` with positive `maxscore`. -/
theorem gradeRisk_bounds (grade : List GradeRecord) (cscope : ℤ → Prop)
    [DecidablePred cscope] (u : ℤ)
    (hg : ∀ r ∈ grade, 0 ≤ r.score ∧ r.score ≤ r.maxscore ∧ 0 < r.maxscore) :
    0 ≤ gradeRisk grade cscope u ∧ gradeRisk grade cscope u ≤ 100 := by
  have hsub : ∀ r ∈ stuGrades grade cscope u,
      0 ≤ r.score ∧ r.score ≤ r.maxscore ∧ 0 < r.maxscore :=
    fun r hr => hg r (List.mem_of_mem_filter (List.mem_of_mem_filter hr))
  obtain ⟨h0, h1⟩ := avgGradePct_bounds _ hsub
  unfold gradeRisk
  constructor <;> linarith

/-- Counterexample to C2 as stated: with a grade row scoring 200/100 (nothing
in the code forbids it) and an event on the as-of date, the composite risk is
negative. -/
theorem C2_risk_counterexample :
    riskScore [⟨1, 1, 1, 200, 100⟩] [] [⟨1, 1, 0⟩] (fun c => c = 1) 0 1 < 0 := by
  have hsg : stuGrades [⟨1, 1, 1, 200, 100⟩] (fun c => c = 1) 1 =
      [⟨1, 1, 1, 200, 100⟩] := by decide
  have h1 : gradeRisk [⟨1, 1, 1, 200, 100⟩] (fun c => c = 1) 1 = -100 := by
    unfold gradeRisk
    rw [hsg]
    norm_num [avgGradePct]
  have h2 : missingRisk [] (fun c => c = 1) 0 1 = 0 := by
    norm_num [missingRisk, missCnt]
  have h3 : inactivityRisk [⟨1, 1, 0⟩] (fun c => c = 1) 0 1 = 0 := by
    have hl : lastEventTs [⟨1, 1, 0⟩] (fun c => c = 1) 1 = some 0 := by decide
    have hdate : dateOf 0 = 0 := by decide
    unfold inactivityRisk inactivityDays
    rw [hl]
    show min (100 : ℚ) (((0 - dateOf 0 : ℤ) : ℚ) / 30 * 100) = 0
    rw [hdate]
    norm_num
  unfold riskScore
  rw [h1, h2, h3]
  norm_num

/-- C2 (amended): the composite risk lies in `[0, 100]` PROVIDED every grade
row's score lies in `[0, maxscore]` with positive `maxscore` and no event is
dated after the as-of date; and it equals exactly 100 for a learner with zero
grade rows in scope, zero events in scope and at least 10 missing items. -/
theorem C2_risk_bounds (grade : List GradeRecord) (subm : List SubmissionRecord)
    (events : List ActivityEvent) (cscope : ℤ → Prop) [DecidablePred cscope]
    (today u : ℤ)
    (hg : ∀ r ∈ grade, 0 ≤ r.score ∧ r.score ≤ r.maxscore ∧ 0 < r.maxscore)
    (he : ∀ e ∈ events, dateOf e.timestamp ≤ today) :
    (0 ≤ riskScore grade subm events cscope today u ∧
      riskScore grade subm events cscope today u ≤ 100) ∧
    (stuGrades grade cscope u = [] →
      (events.filter fun e => decide (cscope e.course_id ∧ e.user_id = u)) = [] →
      10 ≤ missCnt subm cscope today u →
      riskScore grade subm events cscope today u = 100) := by
  obtain ⟨g0, g1⟩ := gradeRisk_bounds grade cscope u hg
  obtain ⟨m0, m1⟩ := missingRisk_bounds subm cscope today u
  obtain ⟨i0, i1⟩ := inactivityRisk_bounds events cscope today u he
  refine ⟨⟨by unfold riskScore; linarith, by unfold riskScore; linarith⟩, ?_⟩
  intro hG hE hM
  have h1 : gradeRisk grade cscope u = 100 := by
    unfold gradeRisk
    rw [hG]
    simp [avgGradePct]
  have h2 : missingRisk subm cscope today u = 100 := by
    unfold missingRisk
    have h10 : (10 : ℚ) ≤ (missCnt subm cscope today u : ℚ) := by exact_mod_cast hM
    have : (100 : ℚ) ≤ (missCnt subm cscope today u : ℚ) * 10 := by linarith
    exact min_eq_left this
  have h3 : inactivityRisk events cscope today u = 100 := by
    unfold inactivityRisk inactivityDays lastEventTs
    rw [hE]
    norm_num [tsMax]
  unfold riskScore
  rw [h1, h2, h3]
  norm_num

/-- Ten identical overdue unsubmitted rows of user 1 in course 1. -/
def sampleMissing10 : List SubmissionRecord :=
  List.replicate 10 ⟨1, 1, 5, none, 0⟩

/-- Witness for C2 at a concrete input: a learner with no grades, no events and
10 missing items scores exactly 100. -/
theorem C2_risk_bounds_witness :
    riskScore [] sampleMissing10 [] (fun c => c = 1) 10 1 = 100 :=
  (C2_risk_bounds [] sampleMissing10 [] (fun c => c = 1) 10 1 (by simp)
    (by simp)).2 (by decide) (by decide) (by decide)

/-- The code's two-step grade selection equals the spec's one-pass selection. -/
theorem stuGrades_eq_spec (grade : List GradeRecord) (cscope : ℤ → Prop)
    [DecidablePred cscope] (u : ℤ) :
    stuGrades grade cscope u = userScopeGrades grade cscope u := by
  unfold stuGrades userScopeGrades
  exact filter_filter_decide grade _ _

/-- The code's `grade_risk` equals the spec's formulation. -/
theorem gradeRisk_eq_spec (grade : List GradeRecord) (cscope : ℤ → Prop)
    [DecidablePred cscope] (u : ℤ) :
    gradeRisk grade cscope u = gradeRiskSpec grade cscope u := by
  unfold gradeRisk gradeRiskSpec
  rw [stuGrades_eq_spec]
  by_cases h : userScopeGrades grade cscope u = []
  · rw [if_pos h, h]
    simp [avgGradePct]
  · rw [if_neg h, avgGradePct_eq_spec]

/-- The code's per-user missing count (three chained filters, then a groupby
size lookup) equals the spec's single count. -/
theorem missCnt_eq_countP (subm : List SubmissionRecord) (cscope : ℤ → Prop)
    [DecidablePred cscope] (today u : ℤ) :
    missCnt subm cscope today u = subm.countP fun r =>
      decide (cscope r.course_id ∧ r.user_id = u ∧ r.submitted_at = none ∧
        dateOf r.duedate < today) := by
  unfold missCnt
  rw [filter_filter_decide, filter_filter_decide, List.countP_eq_length_filter]
  congr 1
  exact filter_congr_decide subm _ _ (fun r => by tauto)

/-- The code's `missing_risk` equals the spec's formulation. -/
theorem missingRisk_eq_spec (subm : List SubmissionRecord) (cscope : ℤ → Prop)
    [DecidablePred cscope] (today u : ℤ) :
    missingRisk subm cscope today u = missingRiskSpec subm cscope today u := by
  unfold missingRisk missingRiskSpec
  rw [missCnt_eq_countP, mul_comm]

/-- The code's inactivity-day count equals the spec's formulation (the two
selections list the scope conjuncts in opposite order). -/
theorem inactivityDays_eq_spec (events : List ActivityEvent) (cscope : ℤ → Prop)
    [DecidablePred cscope] (today u : ℤ) :
    inactivityDays events cscope today u = inactivityDaysSpec events cscope today u := by
  unfold inactivityDays inactivityDaysSpec lastEventTs
  rw [filter_congr_decide events (fun e => cscope e.course_id ∧ e.user_id = u)
    (fun e => e.user_id = u ∧ cscope e.course_id) (fun e => And.comm)]

/-- The code's `inactivity_risk` equals the spec's formulation. -/
theorem inactivityRisk_eq_spec (events : List ActivityEvent) (cscope : ℤ → Prop)
    [DecidablePred cscope] (today u : ℤ) :
    inactivityRisk events cscope today u = inactivityRiskSpec events cscope today u := by
  unfold inactivityRisk inactivityRiskSpec
  rw [inactivityDays_eq_spec]

/-- C1: for every learner in scope, the composite risk computed by the code
equals the spec's formula: the equal-weight mean of `grade_risk`
(100 - avg_grade_pct, 100 with no grade rows), `missing_risk`
(min(100, 10 x missing count)) and `inactivity_risk`
(min(100, inactivity_days / 30 x 100), 30-day sentinel with no events). -/
theorem C1_risk_formula (grade : List GradeRecord) (subm : List SubmissionRecord)
    (events : List ActivityEvent) (cscope : ℤ → Prop) [DecidablePred cscope]
    (today u : ℤ) :
    riskScore grade subm events cscope today u =
      riskScoreSpec grade subm events cscope today u := by
  unfold riskScore riskScoreSpec
  rw [gradeRisk_eq_spec, missingRisk_eq_spec, inactivityRisk_eq_spec]

/-- Two events of one user, 60 seconds apart: a gap of exactly 1 minute. -/
def sampleGapOneMin : List ActivityEvent := [⟨1, 1, 0⟩, ⟨1, 1, 60⟩]

/-- The gap list of `sampleGapOneMin` is the single gap of exactly 1 minute. -/
theorem sampleGapOneMin_gaps : allGapsMin sampleGapOneMin = [1] := by
  have hu : ((sampleGapOneMin.map fun e => e.user_id)).dedup = [1] := by decide
  have hs : sortedTs sampleGapOneMin 1 = [0, 60] := by decide
  unfold allGapsMin
  rw [hu]
  simp [hs, gapsMin]

/-- Counterexample to C6 as stated: pandas `between(1, 30)` is inclusive, so a
gap of exactly 1 minute IS kept by the code, while the claim's strict bounds
exclude it. -/
theorem C6_learning_hours_counterexample :
    avgLearningHours sampleGapOneMin ≠ learningHoursSpecStrict sampleGapOneMin := by
  have hkept : keptGapsMin sampleGapOneMin = [1] := by
    unfold keptGapsMin
    rw [sampleGapOneMin_gaps]
    norm_num
  have hstrict : strictGapHours sampleGapOneMin = [] := by
    unfold strictGapHours
    rw [sampleGapOneMin_gaps]
    norm_num
  have h1 : avgLearningHours sampleGapOneMin =
      some (round2 (((1 : ℚ)) / ((1 : ℕ) : ℚ) / 60)) := by
    unfold avgLearningHours
    rw [hkept]
    norm_num
  have h2 : learningHoursSpecStrict sampleGapOneMin = none := by
    unfold learningHoursSpecStrict
    rw [hstrict]
    simp
  rw [h1, h2]
  simp

/-- C6 (amended): the learning-hours proxy equals the mean, over consecutive
same-user event pairs whose gap is between 1 and 30 minutes INCLUSIVE, of the
gap length in hours, rounded to 2 decimals (`none` when no pair qualifies). -/
theorem C6_learning_hours_inclusive (evs : List ActivityEvent) :
    avgLearningHours evs = learningHoursSpecIncl evs := by
  have hkey : inclGapHours evs = (keptGapsMin evs).map fun g => g / 60 := rfl
  unfold avgLearningHours learningHoursSpecIncl
  rw [hkey]
  cases h : keptGapsMin evs with
  | nil => simp
  | cons a l =>
    rw [if_neg (by simp)]
    have harg : (((a :: l).map fun g => g / 60)).sum /
        ((((a :: l).map fun g => g / 60)).length : ℚ) =
        (a :: l).sum / (((a :: l).length : ℚ)) / 60 := by
      rw [sum_map_div, List.length_map]
      ring
    rw [harg]

/-- A user's last event timestamp over ALL their events. -/
def lastTsAll (events : List ActivityEvent) (u : ℤ) : Option ℤ :=
  tsMax ((events.filter fun e => decide (e.user_id = u)).map fun e => e.timestamp)

/-- For a user of the pool, the pool pre-filter in the groupby maximum is
redundant. -/
theorem lastActivityTs_eq (events : List ActivityEvent) (pool : List ℤ) (u : ℤ)
    (hu : u ∈ pool) : lastActivityTs events pool u = lastTsAll events u := by
  unfold lastActivityTs lastTsAll
  rw [filter_filter_decide]
  rw [filter_congr_decide events _ (fun e => e.user_id = u)
    (fun e => ⟨And.right, fun h => ⟨h ▸ hu, h⟩⟩)]

/-- C9: `inactive_students_7d` counts exactly the pool members who have at
least one activity event and whose latest event date is strictly before the
as-of date minus 7 days; a student with no events at all is never counted. -/
theorem C9_inactive_students (events : List ActivityEvent) (pool : List ℤ)
    (today : ℤ) (u : ℤ) :
    (u ∈ inactiveUsers7d events pool today ↔
      (u ∈ pool ∧ (∃ e ∈ events, e.user_id = u) ∧
        ∃ t, lastTsAll events u = some t ∧ dateOf t < today - 7)) ∧
    ((∀ e ∈ events, e.user_id ≠ u) → u ∉ inactiveUsers7d events pool today) ∧
    inactiveStudents7d events pool today = (inactiveUsers7d events pool today).length := by
  have husers : u ∈ usersWithEvents events pool ↔
      (u ∈ pool ∧ ∃ e ∈ events, e.user_id = u) := by
    unfold usersWithEvents
    simp only [List.mem_dedup, List.mem_map, List.mem_filter, decide_eq_true_eq]
    constructor
    · rintro ⟨e, ⟨he, hp⟩, rfl⟩
      exact ⟨hp, e, he, rfl⟩
    · rintro ⟨hp, e, he, rfl⟩
      exact ⟨e, ⟨he, hp⟩, rfl⟩
  have hmain : u ∈ inactiveUsers7d events pool today ↔
      (u ∈ pool ∧ (∃ e ∈ events, e.user_id = u) ∧
        ∃ t, lastTsAll events u = some t ∧ dateOf t < today - 7) := by
    unfold inactiveUsers7d
    rw [List.mem_filter]
    constructor
    · rintro ⟨hu1, hu2⟩
      obtain ⟨hp, e, he, heu⟩ := husers.mp hu1
      rw [lastActivityTs_eq events pool u hp] at hu2
      cases h : lastTsAll events u with
      | none =>
        rw [h] at hu2
        simp at hu2
      | some t =>
        rw [h] at hu2
        simp only [decide_eq_true_eq] at hu2
        exact ⟨hp, ⟨e, he, heu⟩, t, rfl, hu2⟩
    · rintro ⟨hp, ⟨e, he, heu⟩, t, hlast, hlt⟩
      refine ⟨husers.mpr ⟨hp, e, he, heu⟩, ?_⟩
      rw [lastActivityTs_eq events pool u hp, hlast]
      simpa using hlt
  refine ⟨hmain, ?_, rfl⟩
  intro hno hmem
  obtain ⟨-, ⟨e, he, heu⟩, -⟩ := hmain.mp hmem
  exact hno e he heu

/-- A single event of user 1 on day 0. -/
def sampleOldEvent : List ActivityEvent := [⟨1, 1, 0⟩]

/-- Witness for C9 at a concrete input: with the as-of date on day 20, user 1
(whose only event is on day 0) is counted, while user 2 (no events) is not. -/
theorem C9_inactive_students_witness :
    1 ∈ inactiveUsers7d sampleOldEvent [1] 20 ∧
      2 ∉ inactiveUsers7d sampleOldEvent [1] 20 :=
  ⟨(C9_inactive_students sampleOldEvent [1] 20 1).1.mpr
      ⟨by decide, ⟨⟨1, 1, 0⟩, by simp [sampleOldEvent], rfl⟩, 0, by decide, by decide⟩,
    (C9_inactive_students sampleOldEvent [1] 20 2).2.1 (by decide)⟩

end LMS
